import Mathlib

/-!
Shallow embedding of the invoice/payment core of the multi-tenant invoice
management application (Next.js route handlers over a Prisma store).

Monetary values are JavaScript numbers in the source; they are modelled here
as rationals, so arithmetic facts are stated over `ℚ`.  The store is the pair
of the `Invoice` and `Payment` tables.  Route handlers become pure functions
from a store and a parsed request body to a response and an updated store;
a thrown error inside the `prisma.$transaction` callback aborts the
transaction (no partial writes) and is caught by the surrounding
`try`/`catch`, which returns HTTP status 500.

Source files embedded:
* `src/app/api/payments/route.ts`  (`POST` handler, payment recording)
* `src/app/api/invoices/route.ts`  (`POST` handler, invoice creation)
* `src/app/api/invoices/[id]/route.ts` (`PATCH` handler, invoice update)
* `src/prisma/migrations/20251117232956_init/migration.sql` (column types)
-/

/-- Invoice status values used by the application
(`DRAFT`, `SENT`, `VIEWED`, `PARTIAL`, `PAID`, `OVERDUE`, `CANCELLED`). -/
inductive InvoiceStatus where
  | DRAFT
  | SENT
  | VIEWED
  | PARTIAL
  | PAID
  | OVERDUE
  | CANCELLED
  deriving DecidableEq, Repr

/-- One `InvoiceLineItem` row.  `amount` is stored as
`quantity * unitPrice` at creation time; `order` is the index. -/
structure LineItem where
  description : String
  quantity : ℚ
  unitPrice : ℚ
  amount : ℚ
  category : Option String
  order : ℕ
  deriving DecidableEq, Repr

/-- One `Invoice` row.  Dates are modelled as natural-number timestamps. -/
structure Invoice where
  id : String
  tenantId : String
  invoiceNumber : String
  companyId : String
  clientId : String
  projectId : Option String
  userId : String
  status : InvoiceStatus
  issueDate : ℕ
  dueDate : ℕ
  subtotal : ℚ
  taxRate : ℚ
  taxAmount : ℚ
  discount : ℚ
  total : ℚ
  amountPaid : ℚ
  paidDate : Option ℕ
  notes : Option String
  terms : Option String
  lineItems : List LineItem
  deriving DecidableEq, Repr

/-- One `Payment` row. -/
structure Payment where
  invoiceId : String
  amount : ℚ
  paymentDate : ℕ
  paymentMethod : String
  reference : Option String
  notes : Option String
  deriving DecidableEq, Repr

/-- The persistent store: the `Invoice` and `Payment` tables. -/
structure Store where
  invoices : List Invoice
  payments : List Payment
  deriving DecidableEq, Repr

/-- JavaScript truthiness for an optional string field:
`undefined` and the empty string are falsy. -/
def jsFalsyStr : Option String → Bool
  | none => true
  | some s => decide (s = "")

/-- JavaScript truthiness for an optional numeric field:
`undefined` and `0` are falsy. -/
def jsFalsyNum : Option ℚ → Bool
  | none => true
  | some a => decide (a = 0)

/-- JavaScript `x || null` for an optional string field. -/
def jsOrNull (o : Option String) : Option String :=
  if jsFalsyStr o then none else o

/-- `prisma.invoice.findUnique` on the `id` column. -/
def findInvoice (s : Store) (id : String) : Option Invoice :=
  s.invoices.find? (fun i => i.id = id)

/-- `prisma.invoice.update` on the `id` column: replace the row whose `id`
matches by `v`. -/
def updateInvoiceList (l : List Invoice) (id : String) (v : Invoice) :
    List Invoice :=
  l.map (fun i => if i.id = id then v else i)

/-! ## Payment recording (`POST /api/payments`) -/

/-- Parsed JSON body of a `POST /api/payments` request.  `none` models an
absent (`undefined`) field. -/
structure PaymentRequest where
  invoiceId : Option String
  amount : Option ℚ
  paymentDate : Option ℕ
  paymentMethod : Option String
  reference : Option String
  notes : Option String
  deriving DecidableEq, Repr

/-- The request validation of the payments handler:
`!body.invoiceId || !body.amount || body.amount <= 0`. -/
def paymentValidationFails (b : PaymentRequest) : Bool :=
  jsFalsyStr b.invoiceId || jsFalsyNum b.amount || decide (b.amount.getD 0 ≤ 0)

/-- Errors thrown inside the payments transaction callback. -/
inductive TxError where
  | invoiceNotFound
  | amountExceedsBalance (amount remaining : ℚ)
  deriving DecidableEq, Repr

/-- The payment row created by the transaction callback. -/
def txPayment (invoiceId : String) (amount : ℚ) (paymentDate : ℕ)
    (paymentMethod : String) (reference notes : Option String) : Payment :=
  { invoiceId, amount, paymentDate, paymentMethod, reference, notes }

/-- The status derivation of the transaction callback:
`newAmountPaid >= invoice.total` gives `PAID`, otherwise
`newAmountPaid > 0` gives `PARTIAL`, otherwise the status is unchanged. -/
def txNewStatus (invoice : Invoice) (newAmountPaid : ℚ) : InvoiceStatus :=
  if invoice.total ≤ newAmountPaid then InvoiceStatus.PAID
  else if 0 < newAmountPaid then InvoiceStatus.PARTIAL
  else invoice.status

/-- The invoice update performed by the transaction callback:
`amountPaid := amountPaid + amount`, the derived status, and `paidDate`
set to `now` exactly when the new status is `PAID`. -/
def txUpdatedInvoice (invoice : Invoice) (amount : ℚ) (now : ℕ) : Invoice :=
  let newAmountPaid := invoice.amountPaid + amount
  let newStatus := txNewStatus invoice newAmountPaid
  { invoice with
    amountPaid := newAmountPaid
    status := newStatus
    paidDate := if newStatus = InvoiceStatus.PAID then some now
                else invoice.paidDate }

/-- The `prisma.$transaction` callback of the payments handler: find the
invoice, validate the amount against the remaining balance, insert the
payment row and update the invoice.  A thrown error aborts the whole
transaction, so the error cases leave the store untouched. -/
def recordPaymentTx (s : Store) (invoiceId : String) (amount : ℚ)
    (paymentDate : ℕ) (paymentMethod : String) (reference notes : Option String)
    (now : ℕ) : Except TxError (Payment × Invoice × Store) :=
  match findInvoice s invoiceId with
  | none => Except.error TxError.invoiceNotFound
  | some invoice =>
      let remainingAmount := invoice.total - invoice.amountPaid
      if remainingAmount < amount then
        Except.error (TxError.amountExceedsBalance amount remainingAmount)
      else
        let payment := txPayment invoiceId amount paymentDate paymentMethod
          reference notes
        let updatedInvoice := txUpdatedInvoice invoice amount now
        Except.ok (payment, updatedInvoice,
          { invoices := updateInvoiceList s.invoices invoiceId updatedInvoice
            payments := s.payments ++ [payment] })

/-- Response of the payments handler, by source branch: `created` is the
201 response, `validationError` the 400 response, and `txError` the
catch-all 500 response carrying the thrown error. -/
inductive PaymentsResponse where
  | created (payment : Payment) (invoice : Invoice)
  | validationError
  | txError (e : TxError)
  deriving DecidableEq, Repr

/-- HTTP status code of each payments-handler response. -/
def responseStatus : PaymentsResponse → ℕ
  | PaymentsResponse.created _ _ => 201
  | PaymentsResponse.validationError => 400
  | PaymentsResponse.txError _ => 500

/-- `body.paymentMethod || "BANK_TRANSFER"`. -/
def paymentMethodOf (b : PaymentRequest) : String :=
  if jsFalsyStr b.paymentMethod then "BANK_TRANSFER" else b.paymentMethod.getD ""

/-- The full `POST /api/payments` handler on a parsed body: request
validation, then the transaction; a thrown transaction error is caught and
returned as the 500 branch with the store unchanged. -/
def POST_payments (s : Store) (b : PaymentRequest) (now : ℕ) :
    PaymentsResponse × Store :=
  if paymentValidationFails b then (PaymentsResponse.validationError, s)
  else
    match recordPaymentTx s (b.invoiceId.getD "") (b.amount.getD 0)
      (b.paymentDate.getD now) (paymentMethodOf b) (jsOrNull b.reference)
      (jsOrNull b.notes) now with
    | Except.ok (p, inv, s2) => (PaymentsResponse.created p inv, s2)
    | Except.error e => (PaymentsResponse.txError e, s)

/-! ## Invoice creation (`POST /api/invoices`) -/

/-- One entry of the `lineItems` array of an invoice-creation body. -/
structure LineItemInput where
  description : Option String
  quantity : ℚ
  unitPrice : ℚ
  category : Option String
  deriving DecidableEq, Repr

/-- Parsed JSON body of a `POST /api/invoices` request. -/
structure InvoiceRequest where
  companyId : Option String
  clientId : Option String
  projectId : Option String
  userId : Option String
  status : Option InvoiceStatus
  issueDate : Option ℕ
  dueDate : Option ℕ
  invoiceNumber : Option String
  taxRate : Option ℚ
  discount : Option ℚ
  notes : Option String
  terms : Option String
  lineItems : Option (List LineItemInput)
  deriving DecidableEq, Repr

/-- The request validation of the invoice-creation handler: any of
`companyId`, `clientId`, `userId`, `dueDate`, `lineItems` missing, or an
empty `lineItems` array. -/
def invoiceValidationFails (b : InvoiceRequest) : Bool :=
  jsFalsyStr b.companyId || jsFalsyStr b.clientId || jsFalsyStr b.userId ||
    b.dueDate.isNone || b.lineItems.isNone ||
    decide ((b.lineItems.getD []).length = 0)

/-- `String(n).padStart(3, "0")`. -/
def padStart3 (s : String) : String :=
  if 3 ≤ s.length then s
  else String.mk (List.replicate (3 - s.length) '0') ++ s

/-- Invoice-number generation of the creation handler:
`body.invoiceNumber` when supplied, otherwise a number derived from
`prisma.invoice.count()` — the count of ALL invoice rows in the store,
with no tenant or company restriction. -/
def generateInvoiceNumber (s : Store) (b : InvoiceRequest) (year : ℕ) :
    String :=
  let invoiceCount := s.invoices.length
  if jsFalsyStr b.invoiceNumber then
    "INV-" ++ toString year ++ "-" ++ padStart3 (toString (invoiceCount + 1))
  else b.invoiceNumber.getD ""

/-- `body.lineItems.reduce((sum, item) => sum + item.quantity * item.unitPrice, 0)`. -/
def computeSubtotal (items : List LineItemInput) : ℚ :=
  items.foldl (fun sum item => sum + item.quantity * item.unitPrice) 0

/-- The `InvoiceLineItem` rows created by the creation handler, with
`amount := quantity * unitPrice` and `order` the array index. -/
def createdLineItems (items : List LineItemInput) : List LineItem :=
  items.enum.map (fun p =>
    { description := p.2.description.getD ""
      quantity := p.2.quantity
      unitPrice := p.2.unitPrice
      amount := p.2.quantity * p.2.unitPrice
      category := jsOrNull p.2.category
      order := p.1 })

/-- The `Invoice` row created by the creation handler.  `newId` stands for
the database-generated row id; `year` for `new Date().getFullYear()`;
`now` for `Date.now()`.  The route supplies no `tenantId`
(it predates the multi-tenancy migration), and `amountPaid` and `paidDate`
take their schema defaults `0` and null. -/
def createdInvoice (s : Store) (b : InvoiceRequest) (year now : ℕ)
    (newId : String) : Invoice :=
  let subtotal := computeSubtotal (b.lineItems.getD [])
  let taxRate := b.taxRate.getD 0
  let taxAmount := subtotal * (taxRate / 100)
  let discount := b.discount.getD 0
  let total := subtotal + taxAmount - discount
  { id := newId
    tenantId := ""
    invoiceNumber := generateInvoiceNumber s b year
    companyId := b.companyId.getD ""
    clientId := b.clientId.getD ""
    projectId := jsOrNull b.projectId
    userId := b.userId.getD ""
    status := b.status.getD InvoiceStatus.DRAFT
    issueDate := b.issueDate.getD now
    dueDate := b.dueDate.getD 0
    subtotal := subtotal
    taxRate := taxRate
    taxAmount := taxAmount
    discount := discount
    total := total
    amountPaid := 0
    paidDate := none
    notes := jsOrNull b.notes
    terms := jsOrNull b.terms
    lineItems := createdLineItems (b.lineItems.getD []) }

/-- Response of the invoice-creation handler: 201 on success, 400 on
validation failure, 500 from the catch-all. -/
inductive InvoicesResponse where
  | created (invoice : Invoice)
  | validationError
  | serverError
  deriving DecidableEq, Repr

/-- The full `POST /api/invoices` handler on a parsed body. -/
def POST_invoices (s : Store) (b : InvoiceRequest) (year now : ℕ)
    (newId : String) : InvoicesResponse × Store :=
  if invoiceValidationFails b then (InvoicesResponse.validationError, s)
  else
    let invoice := createdInvoice s b year now newId
    (InvoicesResponse.created invoice,
      { s with invoices := s.invoices ++ [invoice] })

/-! ## Invoice update (`PATCH /api/invoices/[id]`) -/

/-- Parsed JSON body of a `PATCH /api/invoices/[id]` request.  For `notes`
and `terms` the handler distinguishes `undefined` (outer `none`: field
absent) from `null` (inner `none`), mirroring `body.notes !== undefined`. -/
structure InvoicePatchBody where
  status : Option InvoiceStatus
  dueDate : Option ℕ
  notes : Option (Option String)
  terms : Option (Option String)
  deriving DecidableEq, Repr

/-- The update applied by the PATCH handler: conditional spreads for
`status`, `dueDate`, `notes`, `terms`, and `paidDate := new Date()` exactly
when the body sets the status to `PAID`. -/
def applyInvoicePatch (b : InvoicePatchBody) (now : ℕ) (inv : Invoice) :
    Invoice :=
  let updated := { inv with
    status := b.status.getD inv.status
    dueDate := b.dueDate.getD inv.dueDate
    notes := b.notes.getD inv.notes
    terms := b.terms.getD inv.terms }
  if b.status = some InvoiceStatus.PAID then { updated with paidDate := some now }
  else updated

/-- Response of the PATCH handler: 200 on success; `prisma.invoice.update`
on a missing row throws, which the catch-all turns into a 500. -/
inductive PatchResponse where
  | updated (invoice : Invoice)
  | serverError
  deriving DecidableEq, Repr

/-- The full `PATCH /api/invoices/[id]` handler on a parsed body. -/
def PATCH_invoice (s : Store) (id : String) (b : InvoicePatchBody) (now : ℕ) :
    PatchResponse × Store :=
  match findInvoice s id with
  | none => (PatchResponse.serverError, s)
  | some inv =>
      let inv2 := applyInvoicePatch b now inv
      (PatchResponse.updated inv2,
        { s with invoices := updateInvoiceList s.invoices id inv2 })

/-! ## Schema column types (`migration.sql`) -/

/-- SQLite column type names as declared in the initial migration.
`real` is SQLite's 8-byte IEEE 754 binary floating-point storage class;
`decimal` stands for a fixed-point/decimal declaration, which the
migration never uses. -/
inductive SqlColumnType where
  | text
  | real
  | integer
  | datetime
  | boolean
  | decimal
  deriving DecidableEq, Repr

/-- The monetary columns of the `Invoice` table named by the specification
(`subtotal`, `taxAmount`, `discount`, `total`, `amountPaid`). -/
def invoiceMonetaryColumns : List String :=
  ["subtotal", "taxAmount", "discount", "total", "amountPaid"]

/-- Column type declarations of the numeric `Invoice` columns, transcribed
from `migration.sql`: every one of them is declared `REAL`. -/
def invoiceColumnDecls : List (String × SqlColumnType) :=
  [("subtotal", SqlColumnType.real),
   ("taxRate", SqlColumnType.real),
   ("taxAmount", SqlColumnType.real),
   ("discount", SqlColumnType.real),
   ("total", SqlColumnType.real),
   ("amountPaid", SqlColumnType.real)]

/-- Whether a column type is a binary floating-point representation.
SQLite `REAL` is an 8-byte IEEE 754 binary floating-point value. -/
def isFloatingPointType : SqlColumnType → Bool
  | SqlColumnType.real => true
  | _ => false

/-- Whether a column type is a fixed-point or decimal representation. -/
def isFixedPointOrDecimal : SqlColumnType → Bool
  | SqlColumnType.decimal => true
  | _ => false

/-- Modelled from the spec: the tenant-scoped invoice count that §4.2 says
the invoice number is derived from — the count of the invoices whose
`tenantId` is the creating tenant's. -/
def tenantInvoiceCount (s : Store) (tenantId : String) : ℕ :=
  (s.invoices.filter (fun i => i.tenantId = tenantId)).length

/-- Modelled from the spec: the invoice number §4.2 prescribes, derived
from the tenant-scoped count instead of the global count. -/
def specTenantScopedNumber (s : Store) (tenantId : String) (year : ℕ) :
    String :=
  "INV-" ++ toString year ++ "-" ++
    padStart3 (toString (tenantInvoiceCount s tenantId + 1))

/-! ## Concrete fixtures -/

/-- An empty store. -/
def emptyStore : Store := { invoices := [], payments := [] }

/-- A sent invoice of tenant `t1` with `total = 100` and nothing paid. -/
def demoInvoice : Invoice :=
  { id := "inv1"
    tenantId := "t1"
    invoiceNumber := "INV-2025-001"
    companyId := "c1"
    clientId := "cl1"
    projectId := none
    userId := "u1"
    status := InvoiceStatus.SENT
    issueDate := 0
    dueDate := 10
    subtotal := 100
    taxRate := 0
    taxAmount := 0
    discount := 0
    total := 100
    amountPaid := 0
    paidDate := none
    notes := none
    terms := none
    lineItems := [] }

/-- A store holding just `demoInvoice`. -/
def demoStore : Store := { invoices := [demoInvoice], payments := [] }

/-- A payment request of 40 against `demoInvoice`. -/
def demoPayReq : PaymentRequest :=
  { invoiceId := some "inv1"
    amount := some 40
    paymentDate := none
    paymentMethod := none
    reference := none
    notes := none }

/-! ## Helper lemmas -/

/-- Unfolding `recordPaymentTx` on a found invoice whose remaining balance
covers the amount. -/
theorem recordPaymentTx_found_le {s : Store} {invoiceId : String}
    {amount : ℚ} {inv : Invoice} (paymentDate : ℕ) (paymentMethod : String)
    (reference notes : Option String) (now : ℕ)
    (hfind : findInvoice s invoiceId = some inv)
    (hle : amount ≤ inv.total - inv.amountPaid) :
    recordPaymentTx s invoiceId amount paymentDate paymentMethod reference
      notes now =
      Except.ok (txPayment invoiceId amount paymentDate paymentMethod
          reference notes,
        txUpdatedInvoice inv amount now,
        { invoices := updateInvoiceList s.invoices invoiceId
            (txUpdatedInvoice inv amount now)
          payments := s.payments ++
            [txPayment invoiceId amount paymentDate paymentMethod reference
              notes] }) := by
  unfold recordPaymentTx
  rw [hfind]
  simp only [not_lt.mpr hle, if_false]

/-- Unfolding `recordPaymentTx` on a found invoice whose remaining balance
is exceeded by the amount. -/
theorem recordPaymentTx_found_gt {s : Store} {invoiceId : String}
    {amount : ℚ} {inv : Invoice} (paymentDate : ℕ) (paymentMethod : String)
    (reference notes : Option String) (now : ℕ)
    (hfind : findInvoice s invoiceId = some inv)
    (hgt : inv.total - inv.amountPaid < amount) :
    recordPaymentTx s invoiceId amount paymentDate paymentMethod reference
      notes now =
      Except.error (TxError.amountExceedsBalance amount
        (inv.total - inv.amountPaid)) := by
  unfold recordPaymentTx
  rw [hfind]
  simp only [hgt, if_true]

/-- Unfolding `recordPaymentTx` when the invoice id resolves to no row. -/
theorem recordPaymentTx_notFound {s : Store} {invoiceId : String}
    (amount : ℚ) (paymentDate : ℕ) (paymentMethod : String)
    (reference notes : Option String) (now : ℕ)
    (hfind : findInvoice s invoiceId = none) :
    recordPaymentTx s invoiceId amount paymentDate paymentMethod reference
      notes now = Except.error TxError.invoiceNotFound := by
  unfold recordPaymentTx
  rw [hfind]

/-- A passing payment validation, from explicit field facts. -/
theorem paymentValidationFails_eq_false {b : PaymentRequest} {iid : String}
    {a : ℚ} (hid : b.invoiceId = some iid) (hiid : iid ≠ "")
    (ha : b.amount = some a) (hpos : 0 < a) :
    paymentValidationFails b = false := by
  unfold paymentValidationFails jsFalsyStr jsFalsyNum
  rw [hid, ha]
  simp [hiid, hpos.ne', not_le.mpr hpos]

/-- A payment validation passes only when the amount field is a positive
number. -/
theorem amount_pos_of_validation {b : PaymentRequest}
    (hv : paymentValidationFails b = false) : 0 < b.amount.getD 0 := by
  unfold paymentValidationFails jsFalsyNum at hv
  simp only [Bool.or_eq_false_iff, decide_eq_false_iff_not, not_le] at hv
  exact hv.2

/-- Unfolding `POST_payments` when validation passes and the transaction
succeeds. -/
theorem POST_payments_eq_created {s : Store} {b : PaymentRequest} {now : ℕ}
    {inv : Invoice} (hv : paymentValidationFails b = false)
    (hfind : findInvoice s (b.invoiceId.getD "") = some inv)
    (hle : b.amount.getD 0 ≤ inv.total - inv.amountPaid) :
    POST_payments s b now =
      (PaymentsResponse.created
          (txPayment (b.invoiceId.getD "") (b.amount.getD 0)
            (b.paymentDate.getD now) (paymentMethodOf b) (jsOrNull b.reference)
            (jsOrNull b.notes))
          (txUpdatedInvoice inv (b.amount.getD 0) now),
        { invoices := updateInvoiceList s.invoices (b.invoiceId.getD "")
            (txUpdatedInvoice inv (b.amount.getD 0) now)
          payments := s.payments ++
            [txPayment (b.invoiceId.getD "") (b.amount.getD 0)
              (b.paymentDate.getD now) (paymentMethodOf b)
              (jsOrNull b.reference) (jsOrNull b.notes)] }) := by
  unfold POST_payments
  rw [hv]
  simp only [Bool.false_eq_true, if_false]
  rw [recordPaymentTx_found_le _ _ _ _ _ hfind hle]

/-- Inversion of a 201 result of `POST_payments`: validation passed, the
invoice was found, the amount fit the remaining balance, and the returned
payment and invoice are the constructed ones. -/
theorem POST_payments_created_inv {s : Store} {b : PaymentRequest} {now : ℕ}
    {p : Payment} {inv2 : Invoice}
    (hres : (POST_payments s b now).1 = PaymentsResponse.created p inv2) :
    paymentValidationFails b = false ∧
      ∃ inv, findInvoice s (b.invoiceId.getD "") = some inv ∧
        b.amount.getD 0 ≤ inv.total - inv.amountPaid ∧
        p = txPayment (b.invoiceId.getD "") (b.amount.getD 0)
          (b.paymentDate.getD now) (paymentMethodOf b) (jsOrNull b.reference)
          (jsOrNull b.notes) ∧
        inv2 = txUpdatedInvoice inv (b.amount.getD 0) now := by
  by_cases hv : paymentValidationFails b
  · simp [POST_payments, hv] at hres
  · refine ⟨by simpa using hv, ?_⟩
    cases hfind : findInvoice s (b.invoiceId.getD "") with
    | none =>
        rw [show (POST_payments s b now).1 = PaymentsResponse.txError
            TxError.invoiceNotFound from ?_] at hres
        · exact absurd hres (by simp)
        · unfold POST_payments
          simp only [hv, Bool.false_eq_true, if_false]
          rw [recordPaymentTx_notFound _ _ _ _ _ _ hfind]
    | some inv =>
        refine ⟨inv, rfl, ?_⟩
        by_cases hgt : inv.total - inv.amountPaid < b.amount.getD 0
        · rw [show (POST_payments s b now).1 = PaymentsResponse.txError
              (TxError.amountExceedsBalance (b.amount.getD 0)
                (inv.total - inv.amountPaid)) from ?_] at hres
          · exact absurd hres (by simp)
          · unfold POST_payments
            simp only [hv, Bool.false_eq_true, if_false]
            rw [recordPaymentTx_found_gt _ _ _ _ _ hfind hgt]
        · have hle := not_lt.mp hgt
          rw [POST_payments_eq_created (by simpa using hv) hfind hle] at hres
          simp only [PaymentsResponse.created.injEq] at hres
          exact ⟨hle, hres.1.symm, hres.2.symm⟩

/-- `List.find?` on a list whose matching rows were all replaced by `v`
finds `v`, provided some row matched before the replacement. -/
theorem find?_map_update (l : List Invoice) (id : String) (v : Invoice)
    (hvid : v.id = id) (inv : Invoice)
    (hfind : l.find? (fun i => i.id = id) = some inv) :
    (l.map (fun i => if i.id = id then v else i)).find?
      (fun i => i.id = id) = some v := by
  induction l with
  | nil => simp at hfind
  | cons i rest ih =>
      by_cases hi : i.id = id
      · simp only [List.map_cons, if_pos hi]
        exact List.find?_cons_of_pos _ (by simpa using hvid)
      · rw [List.find?_cons_of_neg _ (by simpa using hi)] at hfind
        simp only [List.map_cons, if_neg hi]
        rw [List.find?_cons_of_neg _ (by simpa using hi)]
        exact ih hfind

/-- `findInvoice` after replacing the found row by a row with the same id. -/
theorem findInvoice_update {s : Store} {id : String} {inv v : Invoice}
    {payments : List Payment} (hfind : findInvoice s id = some inv)
    (hvid : v.id = id) :
    findInvoice { invoices := updateInvoiceList s.invoices id v
                  payments := payments } id = some v :=
  find?_map_update s.invoices id v hvid inv hfind

/-- A found invoice satisfies the find predicate: its id is the searched id. -/
theorem findInvoice_id {s : Store} {id : String} {inv : Invoice}
    (hfind : findInvoice s id = some inv) : inv.id = id := by
  unfold findInvoice at hfind
  simpa using List.find?_some hfind

/-- Field equations of the updated invoice. -/
theorem txUpdatedInvoice_fields (inv : Invoice) (a : ℚ) (now : ℕ) :
    (txUpdatedInvoice inv a now).amountPaid = inv.amountPaid + a ∧
      (txUpdatedInvoice inv a now).total = inv.total ∧
      (txUpdatedInvoice inv a now).status =
        txNewStatus inv (inv.amountPaid + a) ∧
      (txUpdatedInvoice inv a now).id = inv.id := by
  unfold txUpdatedInvoice
  constructor
  · rfl
  constructor
  · rfl
  constructor
  · by_cases h : txNewStatus inv (inv.amountPaid + a) = InvoiceStatus.PAID <;>
      simp [h]
  · by_cases h : txNewStatus inv (inv.amountPaid + a) = InvoiceStatus.PAID <;>
      simp [h]

/-- After a successful payment with positive amount on an invoice with
nonnegative `amountPaid`, the updated invoice satisfies the ledger
invariant: `0 ≤ amountPaid ≤ total`, `status = PAID` exactly when
`amountPaid ≥ total`, and `status = PARTIAL` exactly when
`0 < amountPaid < total`. -/
theorem txUpdatedInvoice_invariant (inv : Invoice) (a : ℚ) (now : ℕ)
    (h0 : 0 ≤ inv.amountPaid) (hpos : 0 < a)
    (hle : a ≤ inv.total - inv.amountPaid) :
    0 ≤ (txUpdatedInvoice inv a now).amountPaid ∧
      (txUpdatedInvoice inv a now).amountPaid ≤
        (txUpdatedInvoice inv a now).total ∧
      ((txUpdatedInvoice inv a now).status = InvoiceStatus.PAID ↔
        (txUpdatedInvoice inv a now).total ≤
          (txUpdatedInvoice inv a now).amountPaid) ∧
      ((txUpdatedInvoice inv a now).status = InvoiceStatus.PARTIAL ↔
        0 < (txUpdatedInvoice inv a now).amountPaid ∧
          (txUpdatedInvoice inv a now).amountPaid <
            (txUpdatedInvoice inv a now).total) := by
  obtain ⟨hap, htot, hst, -⟩ := txUpdatedInvoice_fields inv a now
  rw [hap, htot, hst]
  have hnap : 0 < inv.amountPaid + a := by linarith
  have hnle : inv.amountPaid + a ≤ inv.total := by linarith
  refine ⟨by linarith, hnle, ?_, ?_⟩ <;> unfold txNewStatus
  · by_cases h1 : inv.total ≤ inv.amountPaid + a
    · simp [h1]
    · simp [h1, hnap]
  · by_cases h1 : inv.total ≤ inv.amountPaid + a
    · simp only [if_pos h1]
      constructor
      · intro h
        exact absurd h (by simp)
      · intro h
        linarith [h.2]
    · simp only [if_neg h1, if_pos hnap]
      simp [hnap, lt_of_not_le h1]

/-- The handler's `reduce` over line items equals the specification's sum,
for any accumulator. -/
theorem foldl_lineItems_eq_sum (l : List LineItemInput) (acc : ℚ) :
    l.foldl (fun sum item => sum + item.quantity * item.unitPrice) acc =
      acc + (l.map (fun item => item.quantity * item.unitPrice)).sum := by
  induction l generalizing acc with
  | nil => simp
  | cons i rest ih =>
      simp only [List.foldl_cons, List.map_cons, List.sum_cons, ih]
      ring

/-- `computeSubtotal` is the sum of `quantity * unitPrice` over the items. -/
theorem computeSubtotal_eq_sum (items : List LineItemInput) :
    computeSubtotal items =
      (items.map (fun item => item.quantity * item.unitPrice)).sum := by
  unfold computeSubtotal
  simpa using foldl_lineItems_eq_sum items 0

/-- Unfolding `POST_invoices` when validation passes. -/
theorem POST_invoices_eq_created {b : InvoiceRequest}
    (s : Store) (year now : ℕ) (newId : String)
    (hv : invoiceValidationFails b = false) :
    POST_invoices s b year now newId =
      (InvoicesResponse.created (createdInvoice s b year now newId),
        { s with invoices := s.invoices ++ [createdInvoice s b year now newId] }) := by
  unfold POST_invoices
  rw [hv]
  simp

/-- Inversion of a 201 result of `POST_invoices`: validation passed and the
returned invoice is the constructed one. -/
theorem POST_invoices_created_inv {s : Store} {b : InvoiceRequest}
    {year now : ℕ} {newId : String} {inv2 : Invoice}
    (hres : (POST_invoices s b year now newId).1 =
      InvoicesResponse.created inv2) :
    invoiceValidationFails b = false ∧
      inv2 = createdInvoice s b year now newId := by
  by_cases hv : invoiceValidationFails b
  · simp [POST_invoices, hv] at hres
  · have hv2 : invoiceValidationFails b = false := by simpa using hv
    rw [POST_invoices_eq_created s year now newId hv2] at hres
    simp only [InvoicesResponse.created.injEq] at hres
    exact ⟨hv2, hres.symm⟩

/-- Inversion of a 200 result of `PATCH_invoice`: the row was found and the
returned invoice is the patched one. -/
theorem PATCH_invoice_updated_inv {s : Store} {id : String}
    {b : InvoicePatchBody} {now : ℕ} {inv2 : Invoice}
    (hres : (PATCH_invoice s id b now).1 = PatchResponse.updated inv2) :
    ∃ inv, findInvoice s id = some inv ∧
      inv2 = applyInvoicePatch b now inv ∧
      (PATCH_invoice s id b now).2 =
        { s with invoices := updateInvoiceList s.invoices id inv2 } := by
  cases hfind : findInvoice s id with
  | none => simp [PATCH_invoice, hfind] at hres
  | some inv =>
      refine ⟨inv, rfl, ?_⟩
      have heq : PATCH_invoice s id b now =
          (PatchResponse.updated (applyInvoicePatch b now inv),
            { s with invoices := updateInvoiceList s.invoices id (applyInvoicePatch b now inv) }) := by
        unfold PATCH_invoice
        rw [hfind]
      rw [heq] at hres
      simp only [PatchResponse.updated.injEq] at hres
      rw [heq, hres]
      exact ⟨rfl, rfl⟩

/-- The PATCH update leaves every field other than `status`, `dueDate`,
`notes`, `terms` and `paidDate` unchanged, and leaves `paidDate` unchanged
unless the body sets the status to `PAID`. -/
theorem applyInvoicePatch_frame (b : InvoicePatchBody) (now : ℕ)
    (inv : Invoice) :
    (applyInvoicePatch b now inv).id = inv.id ∧
      (applyInvoicePatch b now inv).amountPaid = inv.amountPaid ∧
      (applyInvoicePatch b now inv).subtotal = inv.subtotal ∧
      (applyInvoicePatch b now inv).taxRate = inv.taxRate ∧
      (applyInvoicePatch b now inv).taxAmount = inv.taxAmount ∧
      (applyInvoicePatch b now inv).discount = inv.discount ∧
      (applyInvoicePatch b now inv).total = inv.total ∧
      (applyInvoicePatch b now inv).lineItems = inv.lineItems ∧
      (b.status ≠ some InvoiceStatus.PAID →
        (applyInvoicePatch b now inv).paidDate = inv.paidDate) := by
  unfold applyInvoicePatch
  by_cases h : b.status = some InvoiceStatus.PAID <;> simp [h]

/-! ## Claim theorems -/

/-- A PATCH body that only sets the status to `PAID`. -/
def demoPatchPaid : InvoicePatchBody :=
  { status := some InvoiceStatus.PAID
    dueDate := none
    notes := none
    terms := none }

/-- The invoice produced by patching `demoInvoice` to `PAID`. -/
def c1Patched : Invoice := applyInvoicePatch demoPatchPaid 5 demoInvoice

/-- C1 counterexample: the claimed invariant does not hold after every
operation.  The invoice status update `PATCH /api/invoices/[id]` with body
`status = "PAID"` on an invoice with `amountPaid = 0 < 100 = total`
succeeds and leaves an invoice with `status = PAID` and
`amountPaid < total`, violating `status = PAID ↔ amountPaid ≥ total`. -/
theorem c1_counterexample_patch_breaks_invariant :
    (PATCH_invoice demoStore "inv1" demoPatchPaid 5).1 =
        PatchResponse.updated c1Patched ∧
      c1Patched.status = InvoiceStatus.PAID ∧
      c1Patched.amountPaid < c1Patched.total ∧
      ¬(c1Patched.status = InvoiceStatus.PAID ↔
        c1Patched.total ≤ c1Patched.amountPaid) := by
  refine ⟨rfl, rfl, by decide, ?_⟩
  intro h
  exact absurd (h.mp rfl) (by decide)

/-- C1 (amended): after every successful payment recording on an invoice
with nonnegative `amountPaid`, the updated invoice satisfies
`0 ≤ amountPaid ≤ total`, `status = PAID ↔ amountPaid ≥ total` and
`status = PARTIAL ↔ 0 < amountPaid < total`.  (Invoice creation and
invoice status updates do not preserve the invariant.) -/
theorem c1_invariant_after_payment (s : Store) (b : PaymentRequest)
    (now : ℕ) (inv : Invoice) (p : Payment) (inv2 : Invoice)
    (hfind : findInvoice s (b.invoiceId.getD "") = some inv)
    (hap : 0 ≤ inv.amountPaid)
    (hres : (POST_payments s b now).1 = PaymentsResponse.created p inv2) :
    0 ≤ inv2.amountPaid ∧ inv2.amountPaid ≤ inv2.total ∧
      (inv2.status = InvoiceStatus.PAID ↔ inv2.total ≤ inv2.amountPaid) ∧
      (inv2.status = InvoiceStatus.PARTIAL ↔
        0 < inv2.amountPaid ∧ inv2.amountPaid < inv2.total) := by
  obtain ⟨hv, inv', hfind', hle, -, hinv2⟩ := POST_payments_created_inv hres
  rw [hfind] at hfind'
  obtain rfl : inv = inv' := by injection hfind'
  have hpos := amount_pos_of_validation hv
  rw [hinv2]
  exact txUpdatedInvoice_invariant inv _ now hap hpos hle

/-- The payment row created by recording 40 against `demoInvoice`. -/
def c2Payment : Payment := txPayment "inv1" 40 0 "BANK_TRANSFER" none none

/-- The invoice produced by recording 40 against `demoInvoice`. -/
def c2Updated : Invoice := txUpdatedInvoice demoInvoice 40 0

/-- C1 witness: recording 40 against the sent 100-total `demoInvoice`
yields an invoice satisfying the invariant. -/
theorem c1_witness :
    0 ≤ c2Updated.amountPaid ∧ c2Updated.amountPaid ≤ c2Updated.total ∧
      (c2Updated.status = InvoiceStatus.PAID ↔
        c2Updated.total ≤ c2Updated.amountPaid) ∧
      (c2Updated.status = InvoiceStatus.PARTIAL ↔
        0 < c2Updated.amountPaid ∧ c2Updated.amountPaid < c2Updated.total) :=
  c1_invariant_after_payment demoStore demoPayReq 0 demoInvoice c2Payment
    c2Updated rfl (by norm_num [demoInvoice]) (by
      rw [@POST_payments_eq_created demoStore demoPayReq 0 demoInvoice
        (by decide) rfl (by norm_num [demoPayReq, demoInvoice])]
      rfl)

/-- C2: a payment request with positive amount at most the remaining
balance succeeds with 201, appends exactly one payment row carrying that
amount, and updates the invoice so `amountPaid` grows by exactly the
amount. -/
theorem c2_payment_within_balance_succeeds (s : Store) (b : PaymentRequest)
    (now : ℕ) (iid : String) (a : ℚ) (inv : Invoice)
    (hid : b.invoiceId = some iid) (hiid : iid ≠ "")
    (ha : b.amount = some a) (hpos : 0 < a)
    (hfind : findInvoice s iid = some inv)
    (hle : a ≤ inv.total - inv.amountPaid) :
    responseStatus (POST_payments s b now).1 = 201 ∧
      (POST_payments s b now).2.payments = s.payments ++
        [txPayment iid a (b.paymentDate.getD now) (paymentMethodOf b)
          (jsOrNull b.reference) (jsOrNull b.notes)] ∧
      findInvoice (POST_payments s b now).2 iid =
        some (txUpdatedInvoice inv a now) ∧
      (txUpdatedInvoice inv a now).amountPaid = inv.amountPaid + a := by
  have hv := paymentValidationFails_eq_false hid hiid ha hpos
  have hfind0 : findInvoice s (b.invoiceId.getD "") = some inv := by
    rw [hid]
    exact hfind
  have hle0 : b.amount.getD 0 ≤ inv.total - inv.amountPaid := by
    rw [ha]
    exact hle
  have heq := @POST_payments_eq_created s b now inv hv hfind0 hle0
  rw [hid, ha] at heq
  simp only [Option.getD_some] at heq
  rw [heq]
  have hvid : (txUpdatedInvoice inv a now).id = iid := by
    rw [(txUpdatedInvoice_fields inv a now).2.2.2]
    exact findInvoice_id hfind
  exact ⟨rfl, rfl, findInvoice_update hfind hvid,
    (txUpdatedInvoice_fields inv a now).1⟩

/-- C2 witness: recording 40 against the 100-total `demoInvoice` succeeds
and raises `amountPaid` from 0 to 40. -/
theorem c2_witness :
    responseStatus (POST_payments demoStore demoPayReq 0).1 = 201 ∧
      (POST_payments demoStore demoPayReq 0).2.payments =
        demoStore.payments ++
          [txPayment "inv1" 40 (demoPayReq.paymentDate.getD 0)
            (paymentMethodOf demoPayReq) (jsOrNull demoPayReq.reference)
            (jsOrNull demoPayReq.notes)] ∧
      findInvoice (POST_payments demoStore demoPayReq 0).2 "inv1" =
        some (txUpdatedInvoice demoInvoice 40 0) ∧
      (txUpdatedInvoice demoInvoice 40 0).amountPaid =
        demoInvoice.amountPaid + 40 :=
  c2_payment_within_balance_succeeds demoStore demoPayReq 0 "inv1" 40
    demoInvoice rfl (by decide) rfl (by norm_num) rfl
    (by norm_num [demoInvoice])

/-- An invoice-creation request whose one zero-quantity line item and
discount of 100 produce `subtotal = 0` and `total = -100`. -/
def c3CreateReq : InvoiceRequest :=
  { companyId := some "c1"
    clientId := some "cl1"
    projectId := none
    userId := some "u1"
    status := none
    issueDate := none
    dueDate := some 30
    invoiceNumber := some "INV-NEG"
    taxRate := none
    discount := some 100
    notes := none
    terms := none
    lineItems := some [{ description := some "placeholder"
                         quantity := 0
                         unitPrice := 5
                         category := none }] }

/-- The negative-total invoice produced by `c3CreateReq`. -/
def c3Inv : Invoice := createdInvoice emptyStore c3CreateReq 2025 0 "invNeg"

/-- The store after creating the negative-total invoice. -/
def c3Store : Store := (POST_invoices emptyStore c3CreateReq 2025 0 "invNeg").2

/-- A payment request of amount 0 against the negative-total invoice. -/
def c3PayReq : PaymentRequest :=
  { invoiceId := some "invNeg"
    amount := some 0
    paymentDate := none
    paymentMethod := none
    reference := none
    notes := none }

/-- C3 counterexample: a creatable invoice with `total = -100` and
`amountPaid = 0` has `amount = 0 > total - amountPaid`, yet the payment
request is rejected by the field validation (HTTP 400), not with an
`AmountExceedsBalance` error, so the claim quantified over every payment
request fails. -/
theorem c3_counterexample_nonpositive_amount :
    (POST_invoices emptyStore c3CreateReq 2025 0 "invNeg").1 =
        InvoicesResponse.created c3Inv ∧
      findInvoice c3Store "invNeg" = some c3Inv ∧
      c3Inv.total - c3Inv.amountPaid < c3PayReq.amount.getD 0 ∧
      POST_payments c3Store c3PayReq 0 =
        (PaymentsResponse.validationError, c3Store) ∧
      responseStatus (POST_payments c3Store c3PayReq 0).1 = 400 := by
  refine ⟨rfl, rfl, ?_, rfl, rfl⟩
  show c3Inv.total - c3Inv.amountPaid < (0 : ℚ)
  norm_num [c3Inv, createdInvoice, computeSubtotal, c3CreateReq]

/-- C3 (amended): a payment request with positive amount strictly greater
than the remaining balance fails with `AmountExceedsBalance` and leaves
the store — invoice rows and payment rows — exactly unchanged.
(Requests with nonpositive amount are rejected earlier as validation
errors, also leaving the store unchanged.) -/
theorem c3_exceeds_balance_rejected (s : Store) (b : PaymentRequest)
    (now : ℕ) (iid : String) (a : ℚ) (inv : Invoice)
    (hid : b.invoiceId = some iid) (hiid : iid ≠ "")
    (ha : b.amount = some a) (hpos : 0 < a)
    (hfind : findInvoice s iid = some inv)
    (hgt : inv.total - inv.amountPaid < a) :
    POST_payments s b now =
      (PaymentsResponse.txError
        (TxError.amountExceedsBalance a (inv.total - inv.amountPaid)), s) := by
  have hv := paymentValidationFails_eq_false hid hiid ha hpos
  unfold POST_payments
  rw [hv]
  simp only [Bool.false_eq_true, if_false]
  rw [show b.invoiceId.getD "" = iid from by rw [hid]; rfl,
    show b.amount.getD 0 = a from by rw [ha]; rfl]
  rw [recordPaymentTx_found_gt _ _ _ _ _ hfind hgt]

/-- A payment request of 1000 against the 100-total `demoInvoice`. -/
def c3BigReq : PaymentRequest :=
  { invoiceId := some "inv1"
    amount := some 1000
    paymentDate := none
    paymentMethod := none
    reference := none
    notes := none }

/-- C3 witness: a 1000 payment against the 100-total `demoInvoice` fails
with `AmountExceedsBalance` and leaves the store unchanged. -/
theorem c3_witness :
    POST_payments demoStore c3BigReq 0 =
      (PaymentsResponse.txError
          (TxError.amountExceedsBalance 1000
            (demoInvoice.total - demoInvoice.amountPaid)),
        demoStore) :=
  c3_exceeds_balance_rejected demoStore c3BigReq 0 "inv1" 1000 demoInvoice
    rfl (by decide) rfl (by norm_num) rfl (by norm_num [demoInvoice])

/-- `paidDate` equation of the updated invoice. -/
theorem txUpdatedInvoice_paidDate (inv : Invoice) (a : ℚ) (now : ℕ) :
    (txUpdatedInvoice inv a now).paidDate =
      if txNewStatus inv (inv.amountPaid + a) = InvoiceStatus.PAID
      then some now else inv.paidDate := rfl

/-- C4: a successful `recordPaymentTx` sets
`newAmountPaid = amountPaid + amount` and derives the status from it:
`PAID` with `paidDate = now` when `newAmountPaid ≥ total`; `PARTIAL` when
`0 < newAmountPaid < total`; otherwise the status is unchanged. -/
theorem c4_status_derivation (s : Store) (iid : String) (a : ℚ) (pd : ℕ)
    (m : String) (r n : Option String) (now : ℕ) (inv : Invoice)
    (p : Payment) (inv2 : Invoice) (s2 : Store)
    (hfind : findInvoice s iid = some inv)
    (hok : recordPaymentTx s iid a pd m r n now = Except.ok (p, inv2, s2)) :
    inv2.amountPaid = inv.amountPaid + a ∧
      (inv.total ≤ inv.amountPaid + a →
        inv2.status = InvoiceStatus.PAID ∧ inv2.paidDate = some now) ∧
      (0 < inv.amountPaid + a ∧ inv.amountPaid + a < inv.total →
        inv2.status = InvoiceStatus.PARTIAL) ∧
      (¬inv.total ≤ inv.amountPaid + a →
        ¬(0 < inv.amountPaid + a ∧ inv.amountPaid + a < inv.total) →
        inv2.status = inv.status) := by
  by_cases hgt : inv.total - inv.amountPaid < a
  · rw [recordPaymentTx_found_gt pd m r n now hfind hgt] at hok
    exact absurd hok (by simp)
  · rw [recordPaymentTx_found_le pd m r n now hfind (not_lt.mp hgt)] at hok
    simp only [Except.ok.injEq, Prod.mk.injEq] at hok
    obtain rfl : inv2 = txUpdatedInvoice inv a now := hok.2.1.symm
    have hst := (txUpdatedInvoice_fields inv a now).2.2.1
    refine ⟨(txUpdatedInvoice_fields inv a now).1, ?_, ?_, ?_⟩
    · intro h1
      have hstatus : txNewStatus inv (inv.amountPaid + a) =
          InvoiceStatus.PAID := by
        unfold txNewStatus
        rw [if_pos h1]
      exact ⟨by rw [hst, hstatus],
        by rw [txUpdatedInvoice_paidDate, if_pos hstatus]⟩
    · rintro ⟨h2, h3⟩
      rw [hst]
      unfold txNewStatus
      rw [if_neg (not_le.mpr h3), if_pos h2]
    · intro h1 h4
      have h2 : ¬0 < inv.amountPaid + a := fun h2 =>
        h4 ⟨h2, lt_of_not_le h1⟩
      rw [hst]
      unfold txNewStatus
      rw [if_neg h1, if_neg h2]

/-- The payment row of the full 100 payment used for the C4 witness. -/
def c4Payment : Payment := txPayment "inv1" 100 0 "BANK_TRANSFER" none none

/-- The invoice after the full 100 payment at time 7. -/
def c4Updated : Invoice := txUpdatedInvoice demoInvoice 100 7

/-- The store after the full 100 payment at time 7. -/
def c4Store : Store :=
  { invoices := updateInvoiceList demoStore.invoices "inv1" c4Updated
    payments := demoStore.payments ++ [c4Payment] }

/-- C4 witness: paying the full 100 against `demoInvoice` derives `PAID`
with `paidDate` set; the scenario of §8 with the roles of the concrete
amounts. -/
theorem c4_witness :
    c4Updated.amountPaid = demoInvoice.amountPaid + 100 ∧
      (demoInvoice.total ≤ demoInvoice.amountPaid + 100 →
        c4Updated.status = InvoiceStatus.PAID ∧
          c4Updated.paidDate = some 7) ∧
      (0 < demoInvoice.amountPaid + 100 ∧
          demoInvoice.amountPaid + 100 < demoInvoice.total →
        c4Updated.status = InvoiceStatus.PARTIAL) ∧
      (¬demoInvoice.total ≤ demoInvoice.amountPaid + 100 →
        ¬(0 < demoInvoice.amountPaid + 100 ∧
            demoInvoice.amountPaid + 100 < demoInvoice.total) →
        c4Updated.status = demoInvoice.status) :=
  c4_status_derivation demoStore "inv1" 100 0 "BANK_TRANSFER" none none 7
    demoInvoice c4Payment c4Updated c4Store rfl
    (recordPaymentTx_found_le 0 "BANK_TRANSFER" none none 7 rfl
      (by norm_num [demoInvoice]))

/-- C5: creating an invoice from a non-empty line-item list stores
`subtotal = Σ quantity * unitPrice` (negative amounts included with no
special-casing), `taxAmount = subtotal * (taxRate / 100)` and
`total = subtotal + taxAmount - discount`. -/
theorem c5_totals (s : Store) (b : InvoiceRequest) (year now : ℕ)
    (newId : String) (inv2 : Invoice) (items : List LineItemInput)
    (hitems : b.lineItems = some items)
    (hres : (POST_invoices s b year now newId).1 =
      InvoicesResponse.created inv2) :
    inv2.subtotal =
        (items.map (fun item => item.quantity * item.unitPrice)).sum ∧
      inv2.taxAmount = inv2.subtotal * (inv2.taxRate / 100) ∧
      inv2.total = inv2.subtotal + inv2.taxAmount - inv2.discount := by
  obtain ⟨hv, rfl⟩ := POST_invoices_created_inv hres
  refine ⟨?_, rfl, rfl⟩
  have hsub : (createdInvoice s b year now newId).subtotal =
      computeSubtotal (b.lineItems.getD []) := rfl
  rw [hsub, hitems, Option.getD_some]
  exact computeSubtotal_eq_sum items

/-- The line items of the §8 creation scenario:
`[(quantity 80, unitPrice 125), (quantity 50, unitPrice 100)]`. -/
def c5Items : List LineItemInput :=
  [{ description := some "Development", quantity := 80, unitPrice := 125,
     category := none },
   { description := some "Design", quantity := 50, unitPrice := 100,
     category := none }]

/-- The §8 creation request: `taxRate = 8.5`, no discount. -/
def c5Req : InvoiceRequest :=
  { companyId := some "c1"
    clientId := some "cl1"
    projectId := none
    userId := some "u1"
    status := none
    issueDate := none
    dueDate := some 30
    invoiceNumber := none
    taxRate := some (17 / 2)
    discount := none
    notes := none
    terms := none
    lineItems := some c5Items }

/-- The invoice created by the §8 creation request. -/
def c5Inv : Invoice := createdInvoice emptyStore c5Req 2025 0 "inv5"

/-- C5 witness: the §8 scenario yields `subtotal = 15000`,
`taxAmount = 1275`, `total = 16275`. -/
theorem c5_witness :
    (c5Inv.subtotal =
          (c5Items.map (fun item => item.quantity * item.unitPrice)).sum ∧
        c5Inv.taxAmount = c5Inv.subtotal * (c5Inv.taxRate / 100) ∧
        c5Inv.total = c5Inv.subtotal + c5Inv.taxAmount - c5Inv.discount) ∧
      c5Inv.subtotal = 15000 ∧ c5Inv.taxAmount = 1275 ∧
        c5Inv.total = 16275 := by
  refine ⟨c5_totals emptyStore c5Req 2025 0 "inv5" c5Inv c5Items rfl ?_, ?_⟩
  · rw [POST_invoices_eq_created emptyStore 2025 0 "inv5" (by decide)]
    rfl
  · norm_num [c5Inv, createdInvoice, computeSubtotal, c5Req, c5Items]

/-- C6 (amended): when the caller supplies no invoice number, the assigned
number is derived from the GLOBAL count of all invoice rows — the count is
not restricted to any tenant or company scope. -/
theorem c6_invoice_number_from_global_count (s : Store) (b : InvoiceRequest)
    (year now : ℕ) (newId : String) (inv2 : Invoice)
    (hnum : b.invoiceNumber = none)
    (hres : (POST_invoices s b year now newId).1 =
      InvoicesResponse.created inv2) :
    inv2.invoiceNumber =
      "INV-" ++ toString year ++ "-" ++
        padStart3 (toString (s.invoices.length + 1)) := by
  obtain ⟨hv, rfl⟩ := POST_invoices_created_inv hres
  have hn : (createdInvoice s b year now newId).invoiceNumber =
      generateInvoiceNumber s b year := rfl
  rw [hn]
  unfold generateInvoiceNumber
  rw [hnum]
  simp [jsFalsyStr]

/-- An invoice-creation request from a second tenant's company, with no
client-supplied invoice number. -/
def c6Req : InvoiceRequest :=
  { companyId := some "c2"
    clientId := some "cl2"
    projectId := none
    userId := some "u2"
    status := none
    issueDate := none
    dueDate := some 60
    invoiceNumber := none
    taxRate := none
    discount := none
    notes := none
    terms := none
    lineItems := some [{ description := some "Consulting", quantity := 1,
                         unitPrice := 500, category := none }] }

/-- The invoice created by `c6Req` against a store already holding one
invoice of tenant `t1`. -/
def c6Inv : Invoice := createdInvoice demoStore c6Req 2025 0 "inv6"

/-- C6 counterexample: with one existing invoice belonging to tenant `t1`,
a creation in tenant `t2` scope is numbered `INV-2025-002` from the global
count, while the tenant-scoped count of the spec (0 invoices of `t2`)
yields `INV-2025-001`. -/
theorem c6_counterexample_global_not_tenant_count :
    (POST_invoices demoStore c6Req 2025 0 "inv6").1 =
        InvoicesResponse.created c6Inv ∧
      c6Inv.invoiceNumber = "INV-2025-002" ∧
      tenantInvoiceCount demoStore "t2" = 0 ∧
      specTenantScopedNumber demoStore "t2" 2025 = "INV-2025-001" ∧
      c6Inv.invoiceNumber ≠ specTenantScopedNumber demoStore "t2" 2025 := by
  exact ⟨rfl, rfl, rfl, rfl, by decide⟩

/-- C6 witness: the `c6Req` creation is numbered from the global store
count. -/
theorem c6_witness :
    c6Inv.invoiceNumber =
      "INV-" ++ toString (2025 : ℕ) ++ "-" ++
        padStart3 (toString (demoStore.invoices.length + 1)) :=
  c6_invoice_number_from_global_count demoStore c6Req 2025 0 "inv6" c6Inv rfl
    (by rw [POST_invoices_eq_created demoStore 2025 0 "inv6" (by decide)]
        rfl)

/-- A payment request against a non-existent invoice id. -/
def c7MissingReq : PaymentRequest :=
  { invoiceId := some "nope"
    amount := some 10
    paymentDate := none
    paymentMethod := none
    reference := none
    notes := none }

/-- C7 counterexample: recording a payment against a non-existent
`invoiceId` surfaces as HTTP 500 (not the claimed 404), and an
`AmountExceedsBalance` business-rule rejection also surfaces as HTTP 500
(the claim says it must not). -/
theorem c7_counterexample_500_everywhere :
    (POST_payments demoStore c7MissingReq 0).1 =
        PaymentsResponse.txError TxError.invoiceNotFound ∧
      responseStatus (POST_payments demoStore c7MissingReq 0).1 = 500 ∧
      POST_payments demoStore c3BigReq 0 =
        (PaymentsResponse.txError
            (TxError.amountExceedsBalance 1000
              (demoInvoice.total - demoInvoice.amountPaid)),
          demoStore) ∧
      responseStatus (POST_payments demoStore c3BigReq 0).1 = 500 := by
  have h2 : POST_payments demoStore c3BigReq 0 =
      (PaymentsResponse.txError
          (TxError.amountExceedsBalance 1000
            (demoInvoice.total - demoInvoice.amountPaid)),
        demoStore) := by
    unfold POST_payments
    rw [show paymentValidationFails c3BigReq = false from by decide]
    simp only [Bool.false_eq_true, if_false]
    rw [show c3BigReq.invoiceId.getD "" = "inv1" from rfl,
      show c3BigReq.amount.getD 0 = (1000 : ℚ) from rfl]
    rw [@recordPaymentTx_found_gt demoStore "inv1" 1000 demoInvoice _ _ _ _ _
      rfl (by norm_num [demoInvoice])]
  exact ⟨rfl, rfl, h2, by rw [h2]; rfl⟩

/-- C7 (amended): the payments endpoint returns 400 for validation
failures, 201 on success and 500 for every error thrown in the
transaction — `InvoiceNotFound` and `AmountExceedsBalance` included; it
never returns 404. -/
theorem c7_payments_error_codes (s : Store) (b : PaymentRequest) (now : ℕ) :
    responseStatus (POST_payments s b now).1 ≠ 404 ∧
      ((POST_payments s b now).1 = PaymentsResponse.validationError →
        responseStatus (POST_payments s b now).1 = 400) ∧
      (∀ e, (POST_payments s b now).1 = PaymentsResponse.txError e →
        responseStatus (POST_payments s b now).1 = 500) := by
  cases hr : (POST_payments s b now).1 <;> simp [responseStatus]

/-- C7 witness: the not-found case concretely maps to 500. -/
theorem c7_witness :
    responseStatus (POST_payments demoStore c7MissingReq 0).1 = 500 :=
  (c7_payments_error_codes demoStore c7MissingReq 0).2.2
    TxError.invoiceNotFound rfl

/-- C8 counterexample: the `subtotal` column of the `Invoice` table is
declared `REAL` — SQLite's 8-byte IEEE 754 binary floating point — which
is not a fixed-point or decimal representation. -/
theorem c8_counterexample_real_column :
    invoiceColumnDecls.lookup "subtotal" = some SqlColumnType.real ∧
      isFixedPointOrDecimal SqlColumnType.real = false ∧
      isFloatingPointType SqlColumnType.real = true := by
  decide

/-- C8 (amended): every monetary `Invoice` column (`subtotal`,
`taxAmount`, `discount`, `total`, `amountPaid`) is declared with the
floating-point column type `REAL`, not a fixed-point or decimal type. -/
theorem c8_monetary_columns_are_real (c : String)
    (hc : c ∈ invoiceMonetaryColumns) :
    invoiceColumnDecls.lookup c = some SqlColumnType.real ∧
      isFloatingPointType SqlColumnType.real = true ∧
      isFixedPointOrDecimal SqlColumnType.real = false := by
  fin_cases hc <;> decide

/-- C8 witness: the `total` column is declared `REAL`. -/
theorem c8_witness :
    invoiceColumnDecls.lookup "total" = some SqlColumnType.real ∧
      isFloatingPointType SqlColumnType.real = true ∧
      isFixedPointOrDecimal SqlColumnType.real = false :=
  c8_monetary_columns_are_real "total" (by decide)

/-- C9: the invoice PATCH handler changes at most `status`, `dueDate`,
`notes`, `terms` and — only when the body sets the status to `PAID` —
`paidDate`; `amountPaid`, all totals fields, the line items and the
payment table are unchanged. -/
theorem c9_patch_frame (s : Store) (id : String) (b : InvoicePatchBody)
    (now : ℕ) (inv inv2 : Invoice)
    (hfind : findInvoice s id = some inv)
    (hres : (PATCH_invoice s id b now).1 = PatchResponse.updated inv2) :
    inv2.amountPaid = inv.amountPaid ∧ inv2.subtotal = inv.subtotal ∧
      inv2.taxRate = inv.taxRate ∧ inv2.taxAmount = inv.taxAmount ∧
      inv2.discount = inv.discount ∧ inv2.total = inv.total ∧
      inv2.lineItems = inv.lineItems ∧
      (PATCH_invoice s id b now).2.payments = s.payments ∧
      (b.status ≠ some InvoiceStatus.PAID →
        inv2.paidDate = inv.paidDate) := by
  obtain ⟨inv', hfind', hinv2, hstore⟩ := PATCH_invoice_updated_inv hres
  rw [hfind] at hfind'
  obtain rfl : inv = inv' := by injection hfind'
  rw [hinv2]
  obtain ⟨-, h1, h2, h3, h4, h5, h6, h7, h8⟩ := applyInvoicePatch_frame b now inv
  refine ⟨h1, h2, h3, h4, h5, h6, h7, ?_, h8⟩
  rw [hstore]

/-- A PATCH body setting status to `VIEWED`, a new due date and notes. -/
def c9Patch : InvoicePatchBody :=
  { status := some InvoiceStatus.VIEWED
    dueDate := some 20
    notes := some (some "updated")
    terms := none }

/-- The invoice produced by applying `c9Patch` to `demoInvoice`. -/
def c9Patched : Invoice := applyInvoicePatch c9Patch 3 demoInvoice

/-- C9 witness: patching `demoInvoice` leaves all monetary fields, the
line items, the payment table and `paidDate` unchanged. -/
theorem c9_witness :
    c9Patched.amountPaid = demoInvoice.amountPaid ∧
      c9Patched.subtotal = demoInvoice.subtotal ∧
      c9Patched.taxRate = demoInvoice.taxRate ∧
      c9Patched.taxAmount = demoInvoice.taxAmount ∧
      c9Patched.discount = demoInvoice.discount ∧
      c9Patched.total = demoInvoice.total ∧
      c9Patched.lineItems = demoInvoice.lineItems ∧
      (PATCH_invoice demoStore "inv1" c9Patch 3).2.payments =
        demoStore.payments ∧
      (c9Patch.status ≠ some InvoiceStatus.PAID →
        c9Patched.paidDate = demoInvoice.paidDate) :=
  c9_patch_frame demoStore "inv1" c9Patch 3 demoInvoice c9Patched rfl rfl

/-- C10: a successful payment always leaves the invoice `PARTIAL` or
`PAID` (given nonnegative `amountPaid` beforehand; the amount is positive
by validation), so the unchanged-status branch is unreachable and a
`DRAFT` or `SENT` invoice never stays `DRAFT` or `SENT`. -/
theorem c10_payment_status_partial_or_paid (s : Store) (b : PaymentRequest)
    (now : ℕ) (inv : Invoice) (p : Payment) (inv2 : Invoice)
    (hfind : findInvoice s (b.invoiceId.getD "") = some inv)
    (hap : 0 ≤ inv.amountPaid)
    (hres : (POST_payments s b now).1 = PaymentsResponse.created p inv2) :
    (inv2.status = InvoiceStatus.PARTIAL ∨
        inv2.status = InvoiceStatus.PAID) ∧
      inv2.status ≠ InvoiceStatus.DRAFT ∧
      inv2.status ≠ InvoiceStatus.SENT := by
  obtain ⟨hv, inv', hfind', hle, -, hinv2⟩ := POST_payments_created_inv hres
  rw [hfind] at hfind'
  obtain rfl : inv = inv' := by injection hfind'
  have hpos := amount_pos_of_validation hv
  have hst : inv2.status = InvoiceStatus.PARTIAL ∨
      inv2.status = InvoiceStatus.PAID := by
    rw [hinv2, (txUpdatedInvoice_fields inv _ now).2.2.1]
    unfold txNewStatus
    by_cases h1 : inv.total ≤ inv.amountPaid + b.amount.getD 0
    · right
      rw [if_pos h1]
    · left
      rw [if_neg h1, if_pos (by linarith)]
  refine ⟨hst, ?_, ?_⟩ <;> rcases hst with h | h <;> rw [h] <;> decide

/-- C10 witness: the partial 40 payment leaves `demoInvoice` in status
`PARTIAL`, not `SENT`. -/
theorem c10_witness :
    (c2Updated.status = InvoiceStatus.PARTIAL ∨
        c2Updated.status = InvoiceStatus.PAID) ∧
      c2Updated.status ≠ InvoiceStatus.DRAFT ∧
      c2Updated.status ≠ InvoiceStatus.SENT :=
  c10_payment_status_partial_or_paid demoStore demoPayReq 0 demoInvoice
    c2Payment c2Updated rfl (by norm_num [demoInvoice]) (by
      rw [@POST_payments_eq_created demoStore demoPayReq 0 demoInvoice
        (by decide) rfl (by norm_num [demoPayReq, demoInvoice])]
      rfl)

